import Mathlib

set_option maxHeartbeats 1000000

/-
Shallow embedding of the core of `src/dungeon.py` (Cosmo's Dungeon, a terminal
roguelike).  Python integers are modelled as `Int`; the mutable grids
(`tiles`, `revealed`, `visible`, all `height x width` lists of lists indexed
`grid[y][x]`) are modelled as total functions `Int → Int → α` applied as
`g x y`, with the source's explicit bounds checks carried over; the global
`random` stream is modelled as an explicit stream of naturals, with
`random.randint(lo, hi)` modelled as `lo + n % (hi - lo + 1)` (and as an
`Except` computation in the level generator, where Python's `randint` raises
`ValueError` on an empty range); the float cosine/sine ray directions of
`compute_fov` are abstracted to exact rationals, and Python's `round`
(half-to-even) and `int` (truncation) are modelled exactly on rationals.
-/

-- ── Tile kinds (module constants WALL/FLOOR/DOOR/STAIRS) ─────────────────────

inductive Tile
  | wall
  | floor
  | door
  | stairs
  deriving DecidableEq, Repr

-- ── Scroll effects (SCROLL_EFFECTS second components) ────────────────────────

inductive ScrollEffect
  | damage
  | heal
  | buff_atk
  | buff_def
  | reveal
  deriving DecidableEq, Repr

/-- Item kind with its kind-specific payload (`kind` string tag plus `value`
attribute of the Python `Entity`). -/
inductive ItemKind
  | potion (heal : Int)
  | weapon (bonus : Int)
  | gold (amount : Int)
  | scroll (sname : String) (effect : ScrollEffect)
  deriving DecidableEq, Repr

/-- A floor item: `Entity(x, y, ch, name, color, kind=…, value=…)`. -/
structure Item where
  x : Int
  y : Int
  name : String
  kind : ItemKind
  deriving DecidableEq, Repr

/-- A monster: `Entity(mx, my, ch, name, color, hp=…, max_hp=…, atk=…, xp=…)`. -/
structure Monster where
  x : Int
  y : Int
  ch : String
  name : String
  hp : Int
  max_hp : Int
  atk : Int
  xp : Int
  deriving DecidableEq, Repr

-- ── Player (class Player, dungeon.py lines 118-152) ──────────────────────────

structure Player where
  x : Int
  y : Int
  max_hp : Int := 30
  hp : Int := 30
  base_atk : Int := 3
  atk_bonus : Int := 0
  defense : Int := 0
  xp : Int := 0
  level : Int := 1
  gold : Int := 0
  weapon : String := "fists"
  kills : Int := 0
  depth : Int := 1
  max_depth : Int := 1
  inventory : List Item := []
  deriving DecidableEq, Repr

/-- `Player.__init__(x, y)`: the fresh player with all default stats. -/
def Player.mk0 (x y : Int) : Player := { x := x, y := y }

/-- Property `atk = base_atk + atk_bonus`. -/
def Player.atk (p : Player) : Int := p.base_atk + p.atk_bonus

/-- `xp_to_next(self) = self.level * 20`. -/
def Player.xp_to_next (p : Player) : Int := p.level * 20

/-- The `while self.xp >= self.xp_to_next()` loop inside `Player.gain_xp`:
each iteration subtracts the current threshold from xp, increments the level,
raises max_hp by 8, fully heals, and raises base_atk by 1; `leveled`
accumulates whether at least one iteration ran. -/
def gainXpLoop (p : Player) (leveled : Bool) : Player × Bool :=
  if h : p.xp ≥ p.xp_to_next then
    gainXpLoop
      { p with
        xp := p.xp - p.xp_to_next
        level := p.level + 1
        max_hp := p.max_hp + 8
        hp := p.max_hp + 8
        base_atk := p.base_atk + 1 }
      true
  else
    (p, leveled)
termination_by ((1 - p.level).toNat, p.xp.toNat)
decreasing_by
  simp only [Player.xp_to_next] at h
  rcases le_or_lt p.level 0 with hL | hL
  · exact Prod.Lex.left _ _ (by omega)
  · have e1 : (1 - (p.level + 1)).toNat = 0 := by omega
    have e2 : (1 - p.level).toNat = 0 := by omega
    rw [e1, e2]
    exact Prod.Lex.right _ (by simp only [Player.xp_to_next]; omega)

/-- `Player.gain_xp(amount)` (dungeon.py lines 142-152). -/
def Player.gain_xp (p : Player) (amount : Int) : Player × Bool :=
  gainXpLoop { p with xp := p.xp + amount } false

-- ── RNG model ────────────────────────────────────────────────────────────────

/-- The global `random` stream: an infinite sequence of naturals plus a cursor. -/
structure Rng where
  seq : Nat → Nat
  idx : Nat

def Rng.next (r : Rng) : Nat × Rng := (r.seq r.idx, ⟨r.seq, r.idx + 1⟩)

/-- `random.randint(lo, hi)` at a statically nonempty range: the draw is
`lo + n % (hi - lo + 1)`, covering exactly the inclusive range `[lo, hi]`. -/
def randintOk (lo hi : Int) (r : Rng) : Int × Rng :=
  let nr := r.next
  (lo + (nr.1 : Int) % (hi - lo + 1), nr.2)

/-- `random.randint(0, 2)`, the combat damage reduction draw. -/
def randint02 (r : Rng) : Int × Rng := randintOk 0 2 r

-- ── Combat damage (CombatResolver arithmetic) ────────────────────────────────

/-- `max(1, p.atk - random.randint(0, 2))` from `Game._attack_monster`
(dungeon.py line 594), with `r` the randint draw. -/
def player_attack_damage (atk r : Int) : Int := max 1 (atk - r)

/-- `max(1, m.atk - p.defense - random.randint(0, 2))` from
`Game._monster_turns` (dungeon.py line 646), with `r` the randint draw. -/
def monster_attack_damage (matk defense r : Int) : Int :=
  max 1 (matk - defense - r)

-- ── Grids ────────────────────────────────────────────────────────────────────

/-- A `height x width` Python list-of-lists grid (indexed `grid[y][x]`),
modelled as a total function applied as `g x y`. -/
abbrev Grid (α : Type) : Type := Int → Int → α

/-- In-place update `grid[y][x] = v`. -/
def gset {α : Type} (g : Grid α) (x y : Int) (v : α) : Grid α :=
  fun a b => if a = x ∧ b = y then v else g a b

-- ── Rooms, merchant stock, dungeon level ─────────────────────────────────────

/-- A room rectangle `(rx, ry, rw, rh)`. -/
structure Room where
  x : Int
  y : Int
  w : Int
  h : Int
  deriving DecidableEq, Repr

/-- One merchant stock entry (the dict built by `_generate_merchant_stock`). -/
structure StockEntry where
  ch : String
  name : String
  kind : ItemKind
  price : Int
  deriving DecidableEq, Repr

/-- The merchant entity with its fixed stock. -/
structure Merchant where
  x : Int
  y : Int
  stock : List StockEntry
  deriving DecidableEq, Repr

/-- `class DungeonLevel` state (dungeon.py lines 155-167). -/
structure Dungeon where
  w : Int
  h : Int
  depth : Int
  tiles : Grid Tile
  revealed : Grid Bool
  visible : Grid Bool
  rooms : List Room
  monsters : List Monster
  items : List Item
  stairs_pos : Option (Int × Int)
  merchant : Option Merchant

/-- `DungeonLevel.is_walkable` (dungeon.py lines 279-282). -/
def Dungeon.is_walkable (d : Dungeon) (x y : Int) : Bool :=
  if 0 ≤ x ∧ x < d.w ∧ 0 ≤ y ∧ y < d.h then decide (d.tiles x y ≠ Tile.wall)
  else false

/-- `DungeonLevel.monster_at` (dungeon.py lines 267-271): index of the first
monster at `(x, y)`, mirroring the linear scan (the Python method returns the
object; the index identifies it in the list). -/
def Dungeon.monster_at_idx (d : Dungeon) (x y : Int) : Option Nat :=
  d.monsters.findIdx? (fun m => m.x == x && m.y == y)

/-- `DungeonLevel.item_at` (dungeon.py lines 273-277), as an index. -/
def Dungeon.item_at_idx (d : Dungeon) (x y : Int) : Option Nat :=
  d.items.findIdx? (fun i => i.x == x && i.y == y)

-- ── Field of view (DungeonLevel.compute_fov, dungeon.py lines 284-304) ───────

/-- Python 3 `round` on a rational: round half to even (banker's rounding),
as used by `int(round(x))` in `compute_fov`. -/
def pyRound (q : ℚ) : Int :=
  let f := ⌊q⌋
  let r := q - f
  if r < 1 / 2 then f
  else if 1 / 2 < r then f + 1
  else if f % 2 = 0 then f else f + 1

/-- One ray of `compute_fov`: starting at the continuous position `(x, y)`
with direction `(dx, dy)` and `fuel` remaining steps, round to the nearest
tile, mark it visible and revealed when in bounds, stop immediately after
marking a wall tile or upon leaving the grid bounds, else advance one step. -/
def castRay (d : Dungeon) (dx dy : ℚ) : ℚ → ℚ → Nat → Grid Bool × Grid Bool →
    Grid Bool × Grid Bool
  | _, _, 0, vr => vr
  | x, y, fuel + 1, vr =>
    let ix := pyRound x
    let iy := pyRound y
    if 0 ≤ ix ∧ ix < d.w ∧ 0 ≤ iy ∧ iy < d.h then
      let vis' := gset vr.1 ix iy true
      let rev' := gset vr.2 ix iy true
      if d.tiles ix iy = Tile.wall then (vis', rev')
      else castRay d dx dy (x + dx) (y + dy) fuel (vis', rev')
    else vr

/-- The tiles marked by one ray, in marking order (same traversal as
`castRay`). -/
def rayTrace (d : Dungeon) (dx dy : ℚ) : ℚ → ℚ → Nat → List (Int × Int)
  | _, _, 0 => []
  | x, y, fuel + 1 =>
    let ix := pyRound x
    let iy := pyRound y
    if 0 ≤ ix ∧ ix < d.w ∧ 0 ≤ iy ∧ iy < d.h then
      (ix, iy) ::
        (if d.tiles ix iy = Tile.wall then []
         else rayTrace d dx dy (x + dx) (y + dy) fuel)
    else []

/-- Mark a list of tiles `true` in a boolean grid, in order. -/
def markTiles (ts : List (Int × Int)) (g : Grid Bool) : Grid Bool :=
  ts.foldl (fun g t => gset g t.1 t.2 true) g

/-- `DungeonLevel.compute_fov(px, py, radius)`: clear all visible flags, then
cast 360 rays.  The float directions `(math.cos(a), math.sin(a))` are
abstracted by an arbitrary rational direction table `dirAt`; every theorem
below holds for every such table, hence for the source's cosine/sine one. -/
def Dungeon.compute_fov (d : Dungeon) (px py : Int) (radius : Nat)
    (dirAt : Nat → ℚ × ℚ) : Dungeon :=
  let init : Grid Bool × Grid Bool := (fun _ _ => false, d.revealed)
  let vr := (List.range 360).foldl
    (fun vr a => castRay d (dirAt a).1 (dirAt a).2 (px : ℚ) (py : ℚ) radius vr)
    init
  { d with visible := vr.1, revealed := vr.2 }

/-- `DungeonLevel.reveal_all` (dungeon.py lines 306-309): set every in-bounds
revealed flag true, leaving `visible` untouched. -/
def Dungeon.reveal_all (d : Dungeon) : Dungeon :=
  { d with
    revealed := fun x y =>
      if 0 ≤ x ∧ x < d.w ∧ 0 ≤ y ∧ y < d.h then true else d.revealed x y }

-- ── Game session (class Game) ────────────────────────────────────────────────

/-- The `self.state` string tag of `Game`. -/
inductive Mode
  | title
  | play
  | dead
  | inventory
  | shop
  | win
  deriving DecidableEq, Repr

/-- The mutable state of `Game` owned by the turn loop (screen handle and
color setup are presentation glue, out of the model). -/
structure GameState where
  player : Player
  dungeon : Dungeon
  mode : Mode
  messages : List String
  shop_stock : List StockEntry
  rng : Rng

/-- `Game.msg` (dungeon.py lines 343-346): append, then drop the oldest
message when more than 5 are held. -/
def pushMsg (msgs : List String) (t : String) : List String :=
  let ms := msgs ++ [t]
  if ms.length > 5 then ms.drop 1 else ms

/-- One monster's action inside `Game._monster_turns` (dungeon.py lines
641-658), for the monster at index `i` of the level's list: skip when not
currently visible; attack when Manhattan distance ≤ 1 (returning `true` when
the player's hp drops to 0 or below, the early-return death signal); take one
greedy step when distance ≤ 8 (x axis preferred, blocked by walls and other
monsters); otherwise idle. -/
def stepMonster (st : GameState) (i : Nat) : GameState × Bool :=
  match st.dungeon.monsters.get? i with
  | none => (st, false)
  | some m =>
    if st.dungeon.visible m.x m.y then
      let dist := (m.x - st.player.x).natAbs + (m.y - st.player.y).natAbs
      if dist ≤ 1 then
        let rr := randint02 st.rng
        let dmg := monster_attack_damage m.atk st.player.defense rr.1
        let p' : Player := { st.player with hp := st.player.hp - dmg }
        let st' : GameState := { st with
          player := p'
          rng := rr.2
          messages := pushMsg st.messages
            ("The " ++ m.name ++ " hits you for " ++ toString dmg ++ "!") }
        if p'.hp ≤ 0 then ({ st' with mode := Mode.dead }, true) else (st', false)
      else if dist ≤ 8 then
        let dx : Int :=
          if st.player.x ≠ m.x then (if st.player.x > m.x then 1 else -1) else 0
        let dy : Int :=
          if st.player.y ≠ m.y then (if st.player.y > m.y then 1 else -1) else 0
        let d := st.dungeon
        if dx ≠ 0 ∧ d.is_walkable (m.x + dx) m.y ∧
            d.monster_at_idx (m.x + dx) m.y = none then
          ({ st with dungeon :=
              { d with monsters := d.monsters.set i { m with x := m.x + dx } } },
           false)
        else if dy ≠ 0 ∧ d.is_walkable m.x (m.y + dy) ∧
            d.monster_at_idx m.x (m.y + dy) = none then
          ({ st with dungeon :=
              { d with monsters := d.monsters.set i { m with y := m.y + dy } } },
           false)
        else (st, false)
      else (st, false)
    else (st, false)

/-- The `for m in list(d.monsters)` loop of `_monster_turns` over a snapshot
of monster indices; a death signal (`True` from `stepMonster`) aborts the
remaining turns. -/
def monsterTurnsFrom (st : GameState) : List Nat → GameState
  | [] => st
  | i :: rest =>
    if (stepMonster st i).2 then (stepMonster st i).1
    else monsterTurnsFrom (stepMonster st i).1 rest

/-- `Game._monster_turns` (dungeon.py lines 638-658).  During the sweep
monsters are only moved in place (never added or removed), so iterating the
snapshot `list(d.monsters)` is iterating the indices of the level's list. -/
def monster_turns (st : GameState) : GameState :=
  monsterTurnsFrom st (List.range st.dungeon.monsters.length)

/-- `Game._attack_monster` (dungeon.py lines 592-606) on the monster at
index `i`. -/
def attackMonster (st : GameState) (i : Nat) : GameState :=
  match st.dungeon.monsters.get? i with
  | none => st
  | some m =>
    let rr := randint02 st.rng
    let dmg := player_attack_damage st.player.atk rr.1
    let mhp := m.hp - dmg
    if mhp ≤ 0 then
      let msgs1 := pushMsg st.messages
        ("You slay the " ++ m.name ++ "! (+" ++ toString m.xp ++ " XP)")
      let d' := { st.dungeon with monsters := st.dungeon.monsters.eraseIdx i }
      let pk := Player.gain_xp { st.player with kills := st.player.kills + 1 } m.xp
      let msgs2 :=
        if pk.2 then
          pushMsg msgs1 ("Level up! You are now level " ++ toString pk.1.level ++ "!")
        else msgs1
      let st' := { st with dungeon := d', player := pk.1, messages := msgs2, rng := rr.2 }
      if m.name = "dragon" ∧ st.player.depth ≥ 8 then { st' with mode := Mode.win }
      else st'
    else
      { st with
        dungeon :=
          { st.dungeon with monsters := st.dungeon.monsters.set i { m with hp := mhp } }
        rng := rr.2
        messages := pushMsg st.messages
          ("You hit the " ++ m.name ++ " for " ++ toString dmg ++ " dmg.") }

/-- `Game._pickup` (dungeon.py lines 608-626) on the item at index `j`:
potions and scrolls go to the inventory, a strictly better weapon is equipped,
a weaker-or-equal weapon only produces a message, gold is added to the purse;
in every case the item is removed from the level's list. -/
def pickup (st : GameState) (j : Nat) : GameState :=
  match st.dungeon.items.get? j with
  | none => st
  | some it =>
    let st' :=
      match it.kind with
      | ItemKind.potion _ =>
        { st with
          player := { st.player with inventory := st.player.inventory ++ [it] }
          messages := pushMsg st.messages ("Picked up " ++ it.name ++ ". (i to use)") }
      | ItemKind.weapon bonus =>
        if bonus > st.player.atk_bonus then
          { st with
            player := { st.player with weapon := it.name, atk_bonus := bonus }
            messages := pushMsg st.messages ("Equipped " ++ it.name ++ "!") }
        else
          { st with
            messages := pushMsg st.messages
              ("The " ++ it.name ++ " is weaker than your " ++ st.player.weapon ++ ".") }
      | ItemKind.gold amount =>
        { st with
          player := { st.player with gold := st.player.gold + amount }
          messages := pushMsg st.messages ("Found " ++ toString amount ++ " gold!") }
      | ItemKind.scroll _ _ =>
        { st with
          player := { st.player with inventory := st.player.inventory ++ [it] }
          messages := pushMsg st.messages ("Picked up " ++ it.name ++ ". (i to use)") }
    { st' with dungeon := { st'.dungeon with items := st'.dungeon.items.eraseIdx j } }

/-- The merchant-bump test opening `Game._try_move`: when the merchant exists
and stands on the target tile, his stock. -/
def bumpMerchant (d : Dungeon) (nx ny : Int) : Option (List StockEntry) :=
  match d.merchant with
  | some mer => if mer.x = nx ∧ mer.y = ny then some mer.stock else none
  | none => none

/-- `Game._try_move(dx, dy)` (dungeon.py lines 566-590): merchant bump opens
the shop; a monster on the target tile is attacked; a walkable target moves
the player, recomputes visibility, and auto-picks-up any item there;
otherwise nothing happens. -/
def tryMove (dirAt : Nat → ℚ × ℚ) (st : GameState) (dx dy : Int) : GameState :=
  let nx := st.player.x + dx
  let ny := st.player.y + dy
  match bumpMerchant st.dungeon nx ny with
  | some stock => { st with shop_stock := stock, mode := Mode.shop }
  | none =>
    match st.dungeon.monster_at_idx nx ny with
    | some i => attackMonster st i
    | none =>
      if st.dungeon.is_walkable nx ny then
        let p' := { st.player with x := nx, y := ny }
        let d' := Dungeon.compute_fov st.dungeon nx ny 6 dirAt
        let st' := { st with player := p', dungeon := d' }
        match d'.item_at_idx nx ny with
        | some j => pickup st' j
        | none => st'
      else st

/-- A movement intent in `Game._handle_input` (dungeon.py lines 526-564):
`_try_move(dx, dy)` followed unconditionally by `_monster_turns()`. -/
def handleMove (dirAt : Nat → ℚ × ℚ) (st : GameState) (dx dy : Int) : GameState :=
  monster_turns (tryMove dirAt st dx dy)

/-- A wait intent in `Game._handle_input`: no move, then `_monster_turns()`. -/
def handleWait (st : GameState) : GameState := monster_turns st

-- ── Inventory use (Game._use_item, dungeon.py lines 704-737) ─────────────────

/-- The damage-scroll loop of `_use_item`: every currently visible monster
takes `random.randint(10, 25)` damage; killed monsters are removed, each
granting a kill and xp (possibly levelling the player up); `total` counts the
monsters hit.  Returns the surviving monster list in order, the updated
player, the advanced rng, and the hit count. -/
def scrollDamageLoop (vis : Grid Bool) :
    List Monster → Player → Rng → Nat → List Monster × Player × Rng × Nat
  | [], p, rng, total => ([], p, rng, total)
  | m :: rest, p, rng, total =>
    if vis m.x m.y then
      let dr := randintOk 10 25 rng
      let mhp := m.hp - dr.1
      if mhp ≤ 0 then
        let pk := Player.gain_xp { p with kills := p.kills + 1 } m.xp
        scrollDamageLoop vis rest pk.1 dr.2 (total + 1)
      else
        let out := scrollDamageLoop vis rest p dr.2 (total + 1)
        ({ m with hp := mhp } :: out.1, out.2)
    else
      let out := scrollDamageLoop vis rest p rng total
      (m :: out.1, out.2)

/-- `Game._use_item(idx)` (dungeon.py lines 704-737): apply the item's
effect, then remove it from the inventory (an out-of-range index is a no-op;
a weapon or gold entry in the inventory has no effect branch and is simply
removed, as in the source). -/
def useItem (st : GameState) (idx : Nat) : GameState :=
  match st.player.inventory.get? idx with
  | none => st
  | some it =>
    let st' : GameState :=
      match it.kind with
      | ItemKind.potion heal =>
        { st with
          player := { st.player with hp := min st.player.max_hp (st.player.hp + heal) }
          messages := pushMsg st.messages "You drink the potion." }
      | ItemKind.scroll sname effect =>
        match effect with
        | ScrollEffect.damage =>
          let out := scrollDamageLoop st.dungeon.visible st.dungeon.monsters
            st.player st.rng 0
          { st with
            dungeon := { st.dungeon with monsters := out.1 }
            player := out.2.1
            rng := out.2.2.1
            messages := pushMsg st.messages
              ("The scroll of " ++ sname ++ " blasts " ++ toString out.2.2.2 ++
               " creatures!") }
        | ScrollEffect.heal =>
          { st with
            player := { st.player with hp := st.player.max_hp }
            messages := pushMsg st.messages "The scroll fully restores your health!" }
        | ScrollEffect.buff_atk =>
          { st with
            player := { st.player with base_atk := st.player.base_atk + 2 }
            messages := pushMsg st.messages "You feel stronger!" }
        | ScrollEffect.buff_def =>
          { st with
            player := { st.player with defense := st.player.defense + 2 }
            messages := pushMsg st.messages "A magical shield surrounds you!" }
        | ScrollEffect.reveal =>
          { st with
            dungeon := st.dungeon.reveal_all
            messages := pushMsg st.messages "The dungeon layout is revealed!" }
      | _ => st
    { st' with player := { st'.player with inventory := st'.player.inventory.eraseIdx idx } }

-- ── Shop (Game._shop_screen purchase branch, dungeon.py lines 774-796) ───────

/-- The purchase effect on the player once the price has been paid: a strictly
better weapon is equipped, a weaker-or-equal weapon is a wasted purchase, a
non-weapon entry becomes an inventory item `Entity(0, 0, …)`.  Returns the
updated player and the message. -/
def applyPurchase (p : Player) (entry : StockEntry) : Player × String :=
  match entry.kind with
  | ItemKind.weapon bonus =>
    if bonus > p.atk_bonus then
      ({ p with weapon := entry.name, atk_bonus := bonus },
       "Bought and equipped " ++ entry.name ++ "!")
    else
      (p, "Bought " ++ entry.name ++ " but your " ++ p.weapon ++ " is better.")
  | _ =>
    ({ p with inventory := p.inventory ++ [{ x := 0, y := 0, name := entry.name, kind := entry.kind }] },
     "Bought " ++ entry.name ++ ".")

/-- A letter selection in `Game._shop_screen` (dungeon.py lines 774-796):
out-of-range indices are no-ops; with insufficient gold only the notice
message is emitted; otherwise gold is deducted, the purchase applied, and the
entry popped from the stock (the source's `self._shop_stock` aliases the
merchant's stock list, so the removal is permanent). -/
def shopSelect (st : GameState) (idx : Nat) : GameState :=
  match st.shop_stock.get? idx with
  | none => st
  | some entry =>
    if st.player.gold ≥ entry.price then
      let pm := applyPurchase { st.player with gold := st.player.gold - entry.price } entry
      { st with
        player := pm.1
        messages := pushMsg st.messages pm.2
        shop_stock := st.shop_stock.eraseIdx idx }
    else
      { st with messages := pushMsg st.messages "You cannot afford that!" }

-- ── Level generation (DungeonLevel._generate, dungeon.py lines 170-226) ──────

inductive GenError
  | emptyRange
  | noRooms
  deriving DecidableEq, Repr

abbrev GenM (α : Type) : Type := Except GenError α

/-- `random.randint(lo, hi)` inside the generator: Python raises `ValueError`
when the range is empty (`hi < lo`); otherwise the draw covers `[lo, hi]`. -/
def randintE (lo hi : Int) (r : Rng) : GenM (Int × Rng) :=
  if hi < lo then Except.error GenError.emptyRange
  else
    let nr := r.next
    Except.ok (lo + (nr.1 : Int) % (hi - lo + 1), nr.2)

/-- `random.random()`: a rational in `[0, 1)` drawn from the stream,
abstracting the uniform float draw. -/
def randFloat (r : Rng) : ℚ × Rng :=
  let nr := r.next
  (((nr.1 % 1000 : Nat) : ℚ) / 1000, nr.2)

/-- `random.choice(xs)`: a uniform index draw; raises on an empty list. -/
def choiceE {α : Type} (xs : List α) (r : Rng) : GenM (α × Rng) :=
  match xs with
  | [] => Except.error GenError.emptyRange
  | x :: rest =>
    let nr := r.next
    Except.ok ((x :: rest).getD (nr.1 % (rest.length + 1)) x, nr.2)

/-- Python `int()` on a rational: truncation toward zero. -/
def pyInt (q : ℚ) : Int := if 0 ≤ q then ⌊q⌋ else ⌈q⌉

/-- One row of the `MONSTER_DEFS` table. -/
structure MonsterDef where
  ch : String
  name : String
  hp : Int
  atk : Int
  xp : Int
  deriving DecidableEq, Repr

/-- `MONSTER_DEFS` (dungeon.py lines 34-44), color columns omitted
(presentation glue). -/
def MONSTER_DEFS : List MonsterDef :=
  [⟨"r", "rat", 6, 2, 5⟩,
   ⟨"s", "snake", 8, 3, 8⟩,
   ⟨"g", "goblin", 12, 4, 12⟩,
   ⟨"k", "kobold", 15, 5, 16⟩,
   ⟨"o", "orc", 22, 7, 25⟩,
   ⟨"S", "skeleton", 20, 6, 22⟩,
   ⟨"T", "troll", 35, 9, 40⟩,
   ⟨"W", "wraith", 28, 11, 50⟩,
   ⟨"D", "dragon", 60, 15, 100⟩]

/-- `WEAPON_NAMES` (dungeon.py lines 46-54). -/
def WEAPON_NAMES : List (String × Int) :=
  [("rusty dagger", 2), ("short sword", 4), ("mace", 6), ("long sword", 8),
   ("battle axe", 10), ("war hammer", 12), ("enchanted blade", 15)]

/-- `SCROLL_EFFECTS` (dungeon.py lines 56-63). -/
def SCROLL_EFFECTS : List (String × ScrollEffect) :=
  [("fireball", ScrollEffect.damage), ("lightning", ScrollEffect.damage),
   ("healing", ScrollEffect.heal), ("strength", ScrollEffect.buff_atk),
   ("shield", ScrollEffect.buff_def), ("mapping", ScrollEffect.reveal)]

/-- `DungeonLevel._rooms_overlap` (dungeon.py lines 244-246). -/
def roomsOverlap (a b : Room) : Bool :=
  !(decide (a.x + a.w + 1 < b.x) || decide (b.x + b.w + 1 < a.x) ||
    decide (a.y + a.h + 1 < b.y) || decide (b.y + b.h + 1 < a.y))

/-- `DungeonLevel._carve_room` (dungeon.py lines 248-252). -/
def carveRoom (tiles : Grid Tile) (room : Room) : Grid Tile :=
  (List.range room.h.toNat).foldl
    (fun t j =>
      (List.range room.w.toNat).foldl
        (fun t i => gset t (room.x + (i : Int)) (room.y + (j : Int)) Tile.floor) t)
    tiles

/-- The `while x != x2` horizontal corridor loop of `_connect`. -/
def carveH (tiles : Grid Tile) (y x x2 : Int) : Grid Tile :=
  if h : x = x2 then tiles
  else carveH (gset tiles x y Tile.floor) y (x + (if x2 > x then 1 else -1)) x2
termination_by (x2 - x).natAbs
decreasing_by
  simp_wf
  split <;> omega

/-- The `while y != y2` vertical corridor loop of `_connect`. -/
def carveV (tiles : Grid Tile) (x y y2 : Int) : Grid Tile :=
  if h : y = y2 then tiles
  else carveV (gset tiles x y Tile.floor) x (y + (if y2 > y then 1 else -1)) y2
termination_by (y2 - y).natAbs
decreasing_by
  simp_wf
  split <;> omega

/-- `DungeonLevel._connect` (dungeon.py lines 254-265): an axis-aligned
L-shaped corridor between the two room centers (Python `//` is `Int.fdiv`). -/
def connect (tiles : Grid Tile) (r1 r2 : Room) : Grid Tile :=
  let x1 := r1.x + Int.fdiv r1.w 2
  let y1 := r1.y + Int.fdiv r1.h 2
  let x2 := r2.x + Int.fdiv r2.w 2
  let y2 := r2.y + Int.fdiv r2.h 2
  carveV (carveH tiles y1 x1 x2) x2 y1 y2

/-- The `for _ in range(200)` room-placement loop of `_generate` (dungeon.py
lines 172-184), with `fuel` the remaining attempts: stop early once
`numRooms` rooms are accepted; otherwise draw a candidate, reject it on
overlap, and on acceptance carve it and connect it to the previous room. -/
def placeRooms (w h : Int) (numRooms : Nat) :
    Nat → List Room → Grid Tile → Rng → GenM (List Room × Grid Tile × Rng)
  | 0, rooms, tiles, r => Except.ok (rooms, tiles, r)
  | fuel + 1, rooms, tiles, r =>
    if rooms.length ≥ numRooms then Except.ok (rooms, tiles, r)
    else do
      let (rw, r) ← randintE 5 12 r
      let (rh, r) ← randintE 4 8 r
      let (rx, r) ← randintE 1 (w - rw - 2) r
      let (ry, r) ← randintE 1 (h - rh - 2) r
      let room : Room := ⟨rx, ry, rw, rh⟩
      if rooms.any (fun q => roomsOverlap room q) then
        placeRooms w h numRooms fuel rooms tiles r
      else
        let tiles1 := carveRoom tiles room
        let tiles2 :=
          match rooms.getLast? with
          | some prev => connect tiles1 prev room
          | none => tiles1
        placeRooms w h numRooms fuel (rooms ++ [room]) tiles2 r

/-- The inner monster-spawn loop of `_generate` (dungeon.py lines 196-210)
for one room, `k` spawns remaining (the tier draw and the append happen only
when the drawn position is a floor tile). -/
def spawnMonsters (depth : Int) (tiles : Grid Tile) (room : Room) :
    Nat → List Monster → Rng → GenM (List Monster × Rng)
  | 0, acc, r => Except.ok (acc, r)
  | k + 1, acc, r => do
    let (mx, r) ← randintE (room.x + 1) (room.x + room.w - 2) r
    let (my, r) ← randintE (room.y + 1) (room.y + room.h - 2) r
    if tiles mx my = Tile.floor then do
      let (tierRaw, r) ← randintE 0 depth r
      let tier := (min tierRaw ((MONSTER_DEFS.length : Int) - 1)).toNat
      let md := MONSTER_DEFS.getD tier ⟨"r", "rat", 6, 2, 5⟩
      let hp_scale : ℚ := 1 + ((depth : ℚ) - 1) * (15 / 100)
      let atk_scale : ℚ := 1 + ((depth : ℚ) - 1) * (1 / 10)
      let mhp := pyInt ((md.hp : ℚ) * hp_scale)
      let m : Monster :=
        { x := mx, y := my, ch := md.ch, name := md.name, hp := mhp,
          max_hp := mhp, atk := pyInt ((md.atk : ℚ) * atk_scale), xp := md.xp }
      spawnMonsters depth tiles room k (acc ++ [m]) r
    else
      spawnMonsters depth tiles room k acc r

/-- The monster-placement phase (dungeon.py lines 193-210), over
`rooms[1:]`. -/
def monstersPhase (depth : Int) (tiles : Grid Tile) :
    List Room → List Monster → Rng → GenM (List Monster × Rng)
  | [], acc, r => Except.ok (acc, r)
  | room :: rest, acc, r => do
    let (n, r) ← randintE 0 (2 + Int.fdiv depth 2) r
    let (acc, r) ← spawnMonsters depth tiles room n.toNat acc r
    monstersPhase depth tiles rest acc r

/-- `DungeonLevel._place_item` (dungeon.py lines 228-242): kind chosen by
cumulative probability bands on the roll. -/
def placeItem (depth : Int) (x y : Int) (items : List Item) (r : Rng) :
    GenM (List Item × Rng) :=
  let fr := randFloat r
  let roll := fr.1
  let r := fr.2
  if roll < 35 / 100 then do
    let (heal, r) ← randintE 8 20 r
    Except.ok (items ++
      [{ x := x, y := y, name := "potion (+" ++ toString heal ++ " HP)",
         kind := ItemKind.potion heal }], r)
  else if roll < 6 / 10 then do
    let (tierRaw, r) ← randintE 0 depth r
    let tier := (min tierRaw ((WEAPON_NAMES.length : Int) - 1)).toNat
    let wb := WEAPON_NAMES.getD tier ("rusty dagger", 2)
    Except.ok (items ++ [{ x := x, y := y, name := wb.1, kind := ItemKind.weapon wb.2 }], r)
  else if roll < 85 / 100 then do
    let (amount, r) ← randintE 5 (15 + depth * 5) r
    Except.ok (items ++
      [{ x := x, y := y, name := toString amount ++ " gold",
         kind := ItemKind.gold amount }], r)
  else do
    let (eff, r) ← choiceE SCROLL_EFFECTS r
    Except.ok (items ++
      [{ x := x, y := y, name := "scroll of " ++ eff.1,
         kind := ItemKind.scroll eff.1 eff.2 }], r)

/-- The item-placement phase (dungeon.py lines 212-218): each room has a 50%
chance of one item at a random interior floor position. -/
def itemsPhase (depth : Int) (tiles : Grid Tile) :
    List Room → List Item → Rng → GenM (List Item × Rng)
  | [], items, r => Except.ok (items, r)
  | room :: rest, items, r => do
    let fr := randFloat r
    if fr.1 < 1 / 2 then do
      let (ix, r) ← randintE (room.x + 1) (room.x + room.w - 2) fr.2
      let (iy, r) ← randintE (room.y + 1) (room.y + room.h - 2) r
      if tiles ix iy = Tile.floor then do
        let (items, r) ← placeItem depth ix iy items r
        itemsPhase depth tiles rest items r
      else
        itemsPhase depth tiles rest items r
    else
      itemsPhase depth tiles rest items fr.2

/-- The 1-2 potion entries of `_generate_merchant_stock`. -/
def genPotions (depth : Int) :
    Nat → List StockEntry → Rng → GenM (List StockEntry × Rng)
  | 0, acc, r => Except.ok (acc, r)
  | k + 1, acc, r => do
    let (hraw, r) ← randintE 10 20 r
    let heal := hraw + depth * 2
    let (price, r) ← randintE 15 25 r
    genPotions depth k
      (acc ++ [{ ch := "!", name := "potion (+" ++ toString heal ++ " HP)",
                 kind := ItemKind.potion heal, price := price }]) r

/-- The 1-2 scroll entries of `_generate_merchant_stock`. -/
def genScrolls : Nat → List StockEntry → Rng → GenM (List StockEntry × Rng)
  | 0, acc, r => Except.ok (acc, r)
  | k + 1, acc, r => do
    let (eff, r) ← choiceE SCROLL_EFFECTS r
    let (price, r) ← randintE 30 50 r
    genScrolls k
      (acc ++ [{ ch := "?", name := "scroll of " ++ eff.1,
                 kind := ItemKind.scroll eff.1 eff.2, price := price }]) r

/-- `_generate_merchant_stock(depth)` (dungeon.py lines 84-105). -/
def generateMerchantStock (depth : Int) (r : Rng) : GenM (List StockEntry × Rng) := do
  let (np, r) ← randintE 1 2 r
  let (stock, r) ← genPotions depth np.toNat [] r
  let (tierRaw, r) ← randintE 0 (depth + 1) r
  let tier := (min tierRaw ((WEAPON_NAMES.length : Int) - 1)).toNat
  let wb := WEAPON_NAMES.getD tier ("rusty dagger", 2)
  let stock := stock ++
    [{ ch := "/", name := wb.1, kind := ItemKind.weapon wb.2, price := 20 + wb.2 * 3 }]
  let (ns, r) ← randintE 1 2 r
  genScrolls ns.toNat stock r

/-- The merchant-placement phase of `_generate` (dungeon.py lines 220-226):
when more than 2 rooms exist, one interior room (`rooms[1:-1]`) gets the
merchant at its center. -/
def merchantPhase (depth : Int) (rooms : List Room) (r : Rng) :
    GenM (Option Merchant × Rng) :=
  if rooms.length > 2 then do
    let (mroom, r) ← choiceE ((rooms.drop 1).dropLast) r
    let (stock, r) ← generateMerchantStock depth r
    Except.ok (some
      { x := mroom.x + Int.fdiv mroom.w 2, y := mroom.y + Int.fdiv mroom.h 2,
        stock := stock }, r)
  else
    Except.ok (none, r)

/-- `DungeonLevel.__init__` + `_generate` (dungeon.py lines 156-226): room
placement, stairs at the last room's center (`self.rooms[-1]` raises
`IndexError` on an empty room list, modelled as `GenError.noRooms`), then
the monster, item, and merchant phases. -/
def generate (w h depth : Int) (r : Rng) : GenM (Dungeon × Rng) := do
  let (numRooms, r) ← randintE 5 9 r
  let (rooms, tiles, r) ← placeRooms w h numRooms.toNat 200 [] (fun _ _ => Tile.wall) r
  match rooms.getLast? with
  | none => Except.error GenError.noRooms
  | some lr =>
    let sx := lr.x + Int.fdiv lr.w 2
    let sy := lr.y + Int.fdiv lr.h 2
    let tiles := gset tiles sx sy Tile.stairs
    let (monsters, r) ← monstersPhase depth tiles (rooms.drop 1) [] r
    let (items, r) ← itemsPhase depth tiles rooms [] r
    let (mer, r) ← merchantPhase depth rooms r
    Except.ok
      ({ w := w, h := h, depth := depth, tiles := tiles,
         revealed := fun _ _ => false, visible := fun _ _ => false,
         rooms := rooms, monsters := monsters, items := items,
         stairs_pos := some (sx, sy), merchant := mer }, r)

-- ── Concrete states used by counterexamples and witnesses ────────────────────

/-- A deterministic rng stream that always draws 0. -/
def rng0 : Rng := ⟨fun _ => 0, 0⟩

/-- A degenerate direction table (every theorem holds for every table). -/
def dirAt0 : Nat → ℚ × ℚ := fun _ => (0, 0)

/-- A 4x3 level: floor exactly at (1,1) and (2,1), an orc (atk 5) standing at
(2,1) and currently visible there. -/
def dgC2 : Dungeon :=
  { w := 4, h := 3, depth := 1,
    tiles := fun x y => if y = 1 ∧ (x = 1 ∨ x = 2) then Tile.floor else Tile.wall,
    revealed := fun _ _ => false,
    visible := fun x y => x == 2 && y == 1,
    rooms := [], monsters := [⟨2, 1, "o", "orc", 22, 22, 5, 25⟩],
    items := [], stairs_pos := none, merchant := none }

/-- Player at (1,1) with 10 hp next to the visible orc of `dgC2`. -/
def stC2 : GameState :=
  { player := { Player.mk0 1 1 with hp := 10 }, dungeon := dgC2,
    mode := Mode.play, messages := [], shop_stock := [], rng := rng0 }

/-- The `stC2` situation with the player down to 1 hp. -/
def stC6 : GameState := { stC2 with player := { stC2.player with hp := 1 } }

/-- A 4x3 level with a "short sword" (weapon, bonus 4) lying at (2,1). -/
def dgC3 : Dungeon :=
  { w := 4, h := 3, depth := 1,
    tiles := fun x y => if y = 1 ∧ (x = 1 ∨ x = 2) then Tile.floor else Tile.wall,
    revealed := fun _ _ => false, visible := fun _ _ => false,
    rooms := [], monsters := [],
    items := [⟨2, 1, "short sword", ItemKind.weapon 4⟩],
    stairs_pos := none, merchant := none }

/-- Player at (1,1) already wielding a mace (atk_bonus 6) next to the weaker
sword of `dgC3`. -/
def stC3 : GameState :=
  { player := { Player.mk0 1 1 with atk_bonus := 6, weapon := "mace" },
    dungeon := dgC3, mode := Mode.play, messages := [], shop_stock := [],
    rng := rng0 }

/-- A shop entry priced at 20. -/
def entC7 : StockEntry :=
  { ch := "!", name := "potion (+12 HP)", kind := ItemKind.potion 12, price := 20 }

/-- A player with 15 gold facing the single entry `entC7` priced at 20. -/
def stC7 : GameState :=
  { player := { Player.mk0 1 1 with gold := 15 }, dungeon := dgC2,
    mode := Mode.shop, messages := [], shop_stock := [entC7], rng := rng0 }

/-- The `dgC2` level with tile (1,1) already revealed. -/
def dgC10 : Dungeon := { dgC2 with revealed := fun x y => x == 1 && y == 1 }

-- ── Helper lemmas ────────────────────────────────────────────────────────────

/-- One iteration of the level-up loop fires exactly when the threshold is
met. -/
theorem gainXpLoop_step (p : Player) (b : Bool) (h : p.xp ≥ p.xp_to_next) :
    gainXpLoop p b = gainXpLoop
      { p with xp := p.xp - p.xp_to_next, level := p.level + 1,
               max_hp := p.max_hp + 8, hp := p.max_hp + 8,
               base_atk := p.base_atk + 1 } true := by
  rw [gainXpLoop.eq_def, dif_pos h]

/-- The level-up loop stops below the threshold. -/
theorem gainXpLoop_stop (p : Player) (b : Bool) (h : ¬p.xp ≥ p.xp_to_next) :
    gainXpLoop p b = (p, b) := by
  rw [gainXpLoop.eq_def, dif_neg h]

/-- The level-up loop preserves `0 ≤ hp ≤ max_hp` (each iteration fully
heals to the new maximum). -/
theorem gainXpLoop_hp_inv (p : Player) (b : Bool) :
    0 ≤ p.hp ∧ p.hp ≤ p.max_hp →
    0 ≤ (gainXpLoop p b).1.hp ∧
    (gainXpLoop p b).1.hp ≤ (gainXpLoop p b).1.max_hp := by
  induction p, b using gainXpLoop.induct with
  | case1 p b hge ih =>
    intro hy
    rw [gainXpLoop_step p b hge]
    exact ih ⟨by simp; omega, by simp⟩
  | case2 p b hlt =>
    intro hy
    rw [gainXpLoop_stop p b hlt]
    exact hy

/-- A purchase never changes the gold beyond the price already deducted. -/
theorem applyPurchase_gold (p : Player) (entry : StockEntry) :
    (applyPurchase p entry).1.gold = p.gold := by
  rcases entry with ⟨ch, name, kind, price⟩
  cases kind <;> simp [applyPurchase]
  split <;> rfl

/-- `compute_fov` leaves the item list untouched. -/
theorem compute_fov_items (d : Dungeon) (px py : Int) (radius : Nat)
    (dirAt : Nat → ℚ × ℚ) :
    (d.compute_fov px py radius dirAt).items = d.items := rfl

/-- `compute_fov` leaves item lookup untouched. -/
theorem compute_fov_item_at_idx (d : Dungeon) (px py : Int) (radius : Nat)
    (dirAt : Nat → ℚ × ℚ) (x y : Int) :
    (d.compute_fov px py radius dirAt).item_at_idx x y = d.item_at_idx x y := rfl

/-- Setting a flag true never clears another flag. -/
theorem gset_true_mono (g : Grid Bool) (x y a b : Int) (h : g a b = true) :
    gset g x y true a b = true := by
  unfold gset
  split <;> simp [h]

/-- Setting a flag true sets it. -/
theorem gset_self (g : Grid Bool) (x y : Int) : gset g x y true x y = true := by
  simp [gset]

/-- A ray only ever sets visible/revealed flags, never clears them. -/
theorem castRay_mono (d : Dungeon) (dx dy : ℚ) (fuel : Nat) :
    ∀ (x y : ℚ) (vr : Grid Bool × Grid Bool) (a b : Int),
      (vr.1 a b = true → (castRay d dx dy x y fuel vr).1 a b = true) ∧
      (vr.2 a b = true → (castRay d dx dy x y fuel vr).2 a b = true) := by
  induction fuel with
  | zero => intro x y vr a b; simp [castRay]
  | succ k ih =>
    intro x y vr a b
    simp only [castRay]
    split
    · split
      · exact ⟨fun h => gset_true_mono _ _ _ _ _ h, fun h => gset_true_mono _ _ _ _ _ h⟩
      · exact ⟨fun h => (ih _ _ _ a b).1 (gset_true_mono _ _ _ _ _ h),
               fun h => (ih _ _ _ a b).2 (gset_true_mono _ _ _ _ _ h)⟩
    · exact ⟨id, id⟩

/-- Rounding an exact integer position is exact. -/
theorem pyRound_intCast (n : Int) : pyRound (n : ℚ) = n := by
  unfold pyRound
  norm_num

/-- A ray with at least one step marks its own in-bounds starting tile. -/
theorem castRay_marks_start (d : Dungeon) (dx dy : ℚ) (px py : Int) (k : Nat)
    (vr : Grid Bool × Grid Bool)
    (hb : 0 ≤ px ∧ px < d.w ∧ 0 ≤ py ∧ py < d.h) :
    (castRay d dx dy (px : ℚ) (py : ℚ) (k + 1) vr).1 px py = true := by
  simp only [castRay, pyRound_intCast]
  rw [if_pos hb]
  split
  · exact gset_self _ _ _
  · exact (castRay_mono d dx dy k _ _ _ px py).1 (gset_self _ _ _)

/-- A fold preserves any property preserved by each step. -/
theorem foldl_pres {α β : Type} (f : β → α → β) (P : β → Prop)
    (hstep : ∀ b a, P b → P (f b a)) :
    ∀ (l : List α) (b : β), P b → P (l.foldl f b) := by
  intro l
  induction l with
  | nil => intro b hb; exact hb
  | cons a t ih => intro b hb; exact ih _ (hstep _ _ hb)

/-- After `compute_fov` at an in-bounds viewpoint with radius ≥ 1, the
viewpoint tile is visible (the first of the 360 rays marks it; the others
preserve it). -/
theorem compute_fov_sees_self (d : Dungeon) (px py : Int) (radius : Nat)
    (dirAt : Nat → ℚ × ℚ) (hr : 1 ≤ radius)
    (hb : 0 ≤ px ∧ px < d.w ∧ 0 ≤ py ∧ py < d.h) :
    (d.compute_fov px py radius dirAt).visible px py = true := by
  obtain ⟨k, rfl⟩ : ∃ k, radius = k + 1 := ⟨radius - 1, by omega⟩
  simp only [Dungeon.compute_fov]
  rw [show (360 : Nat) = 359 + 1 from rfl, List.range_succ_eq_map, List.foldl_cons]
  exact foldl_pres _ (fun vr : Grid Bool × Grid Bool => vr.1 px py = true)
    (fun b a hb' => (castRay_mono d _ _ _ _ _ _ px py).1 hb') _ _
    (castRay_marks_start d _ _ px py k _ hb)

/-- Along one ray, a marked wall tile is always the last marked tile. -/
theorem rayTrace_wall_last (d : Dungeon) (dx dy : ℚ) :
    ∀ (fuel : Nat) (x y : ℚ) (i : Nat) (t : Int × Int),
      (rayTrace d dx dy x y fuel).get? i = some t →
      d.tiles t.1 t.2 = Tile.wall →
      i + 1 = (rayTrace d dx dy x y fuel).length := by
  intro fuel
  induction fuel with
  | zero => intro x y i t hget hw; simp [rayTrace] at hget
  | succ k ih =>
    intro x y i t hget hw
    simp only [rayTrace] at hget ⊢
    by_cases hbnd : 0 ≤ pyRound x ∧ pyRound x < d.w ∧ 0 ≤ pyRound y ∧ pyRound y < d.h
    · rw [if_pos hbnd] at hget ⊢
      by_cases hwall : d.tiles (pyRound x) (pyRound y) = Tile.wall
      · rw [if_pos hwall] at hget ⊢
        cases i with
        | zero => simp
        | succ j => simp at hget
      · rw [if_neg hwall] at hget ⊢
        cases i with
        | zero =>
          simp at hget
          subst hget
          exact absurd (by simpa using hw) hwall
        | succ j =>
          simp only [List.get?_cons_succ] at hget
          have := ih (x + dx) (y + dy) j t hget hw
          simp only [List.length_cons]
          omega
    · rw [if_neg hbnd] at hget
      simp at hget

/-- A ray marks exactly the tiles of its trace, on both grids. -/
theorem castRay_eq_markTiles (d : Dungeon) (dx dy : ℚ) :
    ∀ (fuel : Nat) (x y : ℚ) (vr : Grid Bool × Grid Bool),
      castRay d dx dy x y fuel vr =
        (markTiles (rayTrace d dx dy x y fuel) vr.1,
         markTiles (rayTrace d dx dy x y fuel) vr.2) := by
  intro fuel
  induction fuel with
  | zero => intro x y vr; simp [castRay, rayTrace, markTiles]
  | succ k ih =>
    intro x y vr
    simp only [castRay, rayTrace]
    by_cases hbnd : 0 ≤ pyRound x ∧ pyRound x < d.w ∧ 0 ≤ pyRound y ∧ pyRound y < d.h
    · rw [if_pos hbnd, if_pos hbnd]
      by_cases hwall : d.tiles (pyRound x) (pyRound y) = Tile.wall
      · rw [if_pos hwall, if_pos hwall]
        simp [markTiles]
      · rw [if_neg hwall, if_neg hwall]
        rw [ih]
        simp [markTiles]
    · rw [if_neg hbnd, if_neg hbnd]
      simp [markTiles]

/-- Bind of a successful generator step. -/
theorem genm_bind_ok {α β : Type} (a : α) (f : α → GenM β) :
    (Except.ok a >>= f : GenM β) = f a := rfl

/-- Bind of a failed generator step. -/
theorem genm_bind_error {α β : Type} (e : GenError) (f : α → GenM β) :
    ((Except.error e : GenM α) >>= f : GenM β) = Except.error e := rfl

/-- On a width-5 grid the first placement attempt always draws
`rw ∈ [5, 12]`, so the `randint(1, w - rw - 2)` range is empty and the
generator raises. -/
theorem placeRooms_narrow_errors (h : Int) (numRooms fuel : Nat)
    (rooms : List Room) (tiles : Grid Tile) (r : Rng)
    (hfuel : fuel ≠ 0) (hrooms : rooms.length < numRooms) :
    placeRooms 5 h numRooms fuel rooms tiles r = Except.error GenError.emptyRange := by
  obtain ⟨k, rfl⟩ := Nat.exists_eq_succ_of_ne_zero hfuel
  simp only [placeRooms]
  rw [if_neg (by omega)]
  simp only [randintE, Rng.next]
  rw [if_neg (by norm_num : ¬(12 : Int) < 5)]
  simp only [genm_bind_ok]
  rw [if_neg (by norm_num : ¬(8 : Int) < 4)]
  simp only [genm_bind_ok]
  split
  · rfl
  · rename_i hc
    exfalso
    simp at hc
    omega

-- ── Claim theorems ───────────────────────────────────────────────────────────

/-- C1 (counterexample): gaining `2 * xp_to_next() + 5 = 45` XP at level 1
with xp 0 triggers exactly ONE level-up with 25 leftover xp — not two
level-ups with 5 leftover as the claim states — because the threshold is
recomputed from the new level on each iteration (20, then 40 > 25). -/
theorem C1_counterexample :
    ((Player.mk0 0 0).gain_xp (2 * (Player.mk0 0 0).xp_to_next + 5)).1.level = 2 ∧
    ((Player.mk0 0 0).gain_xp (2 * (Player.mk0 0 0).xp_to_next + 5)).1.xp = 25 := by
  have h45 : 2 * (Player.mk0 0 0).xp_to_next + 5 = 45 := by
    simp [Player.mk0, Player.xp_to_next]
  rw [h45]
  unfold Player.gain_xp
  rw [gainXpLoop_step _ _ (by simp [Player.mk0, Player.xp_to_next])]
  rw [gainXpLoop_stop _ _ (by simp [Player.mk0, Player.xp_to_next])]
  simp [Player.mk0, Player.xp_to_next]

/-- C1 (amended): for a player at level L ≥ 1 with xp 0, gaining exactly
`xp_to_next() = 20·L` XP triggers exactly one level-up (level +1, max_hp +8,
hp fully healed, base_atk +1) and resets xp to 0; and at level 1 with xp 0,
gaining `2 * xp_to_next() + 5 = 45` XP triggers exactly one level-up with 25
leftover xp (the threshold being recomputed from the new level on each
iteration), while gaining `xp_to_next(1) + xp_to_next(2) + 5 = 65` XP
triggers exactly two level-ups with 5 leftover xp. -/
theorem C1_levelup_loop_amended :
    (∀ p : Player, p.xp = 0 → 1 ≤ p.level →
      (p.gain_xp p.xp_to_next).1.level = p.level + 1 ∧
      (p.gain_xp p.xp_to_next).1.xp = 0 ∧
      (p.gain_xp p.xp_to_next).1.max_hp = p.max_hp + 8 ∧
      (p.gain_xp p.xp_to_next).1.hp = p.max_hp + 8 ∧
      (p.gain_xp p.xp_to_next).1.base_atk = p.base_atk + 1 ∧
      (p.gain_xp p.xp_to_next).2 = true) ∧
    (∀ p : Player, p.xp = 0 → p.level = 1 →
      ((p.gain_xp 45).1.level = 2 ∧ (p.gain_xp 45).1.xp = 25 ∧
       (p.gain_xp 45).2 = true) ∧
      ((p.gain_xp 65).1.level = 3 ∧ (p.gain_xp 65).1.xp = 5 ∧
       (p.gain_xp 65).1.max_hp = p.max_hp + 16 ∧
       (p.gain_xp 65).1.hp = p.max_hp + 16 ∧
       (p.gain_xp 65).1.base_atk = p.base_atk + 2 ∧ (p.gain_xp 65).2 = true)) := by
  constructor
  · intro p hxp hlv
    unfold Player.gain_xp
    rw [gainXpLoop_step _ _ (by simp [Player.xp_to_next, hxp])]
    rw [gainXpLoop_stop _ _ (by simp [Player.xp_to_next]; omega)]
    simp [Player.xp_to_next, hxp]
  · intro p hxp hlv
    constructor
    · unfold Player.gain_xp
      rw [gainXpLoop_step _ _ (by simp [Player.xp_to_next, hxp, hlv])]
      rw [gainXpLoop_stop _ _ (by simp [Player.xp_to_next, hxp, hlv])]
      simp [Player.xp_to_next, hxp, hlv]
    · unfold Player.gain_xp
      rw [gainXpLoop_step _ _ (by simp [Player.xp_to_next, hxp, hlv])]
      rw [gainXpLoop_step _ _ (by simp [Player.xp_to_next, hxp, hlv])]
      rw [gainXpLoop_stop _ _ (by simp [Player.xp_to_next, hxp, hlv])]
      simp [Player.xp_to_next, hxp, hlv]
      omega

/-- C1 (witness): the fresh level-1 player gaining exactly 20 XP levels up
once to level 2 with xp reset to 0, fully healed at 38 max hp. -/
theorem C1_levelup_loop_amended_witness :
    (Player.mk0 0 0).xp = 0 ∧ 1 ≤ (Player.mk0 0 0).level ∧
    (((Player.mk0 0 0).gain_xp (Player.mk0 0 0).xp_to_next).1.level =
        (Player.mk0 0 0).level + 1 ∧
      ((Player.mk0 0 0).gain_xp (Player.mk0 0 0).xp_to_next).1.xp = 0 ∧
      ((Player.mk0 0 0).gain_xp (Player.mk0 0 0).xp_to_next).1.max_hp =
        (Player.mk0 0 0).max_hp + 8 ∧
      ((Player.mk0 0 0).gain_xp (Player.mk0 0 0).xp_to_next).1.hp =
        (Player.mk0 0 0).max_hp + 8 ∧
      ((Player.mk0 0 0).gain_xp (Player.mk0 0 0).xp_to_next).1.base_atk =
        (Player.mk0 0 0).base_atk + 1 ∧
      ((Player.mk0 0 0).gain_xp (Player.mk0 0 0).xp_to_next).2 = true) :=
  ⟨by decide, by decide,
   C1_levelup_loop_amended.1 (Player.mk0 0 0) (by decide) (by decide)⟩

/-- C2 (counterexample): in `stC2` the tile north of the player is a wall
holding neither merchant nor monster, yet the movement intent changes the
state — the visible adjacent orc attacks during the unconditional monster
sweep and the player's hp drops from 10 to 5 — so a blocked move is not a
no-op that skips the MonsterAI sweep. -/
theorem C2_counterexample :
    bumpMerchant stC2.dungeon (stC2.player.x + 0) (stC2.player.y + (-1)) = none ∧
    stC2.dungeon.monster_at_idx (stC2.player.x + 0) (stC2.player.y + (-1)) = none ∧
    stC2.dungeon.is_walkable (stC2.player.x + 0) (stC2.player.y + (-1)) = false ∧
    stC2.player.hp = 10 ∧
    (handleMove dirAt0 stC2 0 (-1)).player.hp = 5 := by decide

/-- C2 (amended): a movement intent whose target tile is not walkable and
holds neither the merchant nor a monster leaves `_try_move` a strict no-op
(the whole state is unchanged by it), but `_handle_input` still runs exactly
one MonsterAI sweep afterward — the sweep follows every movement intent,
turn-consuming or not. -/
theorem C2_blocked_move_amended (dirAt : Nat → ℚ × ℚ) (st : GameState) (dx dy : Int)
    (hm : bumpMerchant st.dungeon (st.player.x + dx) (st.player.y + dy) = none)
    (hmon : st.dungeon.monster_at_idx (st.player.x + dx) (st.player.y + dy) = none)
    (hw : st.dungeon.is_walkable (st.player.x + dx) (st.player.y + dy) = false) :
    tryMove dirAt st dx dy = st ∧ handleMove dirAt st dx dy = monster_turns st := by
  have h1 : tryMove dirAt st dx dy = st := by
    simp only [tryMove, hm, hmon, hw]
    simp
  exact ⟨h1, by rw [handleMove, h1]⟩

/-- C2 (witness): the blocked northward move in `stC2` is a `_try_move`
no-op followed by a monster sweep. -/
theorem C2_blocked_move_amended_witness :
    bumpMerchant stC2.dungeon (stC2.player.x + 0) (stC2.player.y + (-1)) = none ∧
    stC2.dungeon.monster_at_idx (stC2.player.x + 0) (stC2.player.y + (-1)) = none ∧
    stC2.dungeon.is_walkable (stC2.player.x + 0) (stC2.player.y + (-1)) = false ∧
    (tryMove dirAt0 stC2 0 (-1) = stC2 ∧
     handleMove dirAt0 stC2 0 (-1) = monster_turns stC2) :=
  ⟨by decide, by decide, by decide,
   C2_blocked_move_amended dirAt0 stC2 0 (-1) (by decide) (by decide) (by decide)⟩

/-- C3 (counterexample): in `stC3` the player (atk_bonus 6) steps onto the
weapon of bonus 4 ≤ 6; the item is removed from the level but is NOT added
to the inventory (it is discarded), refuting the claimed transfer into the
inventory. -/
theorem C3_counterexample :
    stC3.dungeon.items.get? 0 = some ⟨2, 1, "short sword", ItemKind.weapon 4⟩ ∧
    (4 : Int) ≤ stC3.player.atk_bonus ∧
    stC3.player.inventory = [] ∧
    (tryMove dirAt0 stC3 1 0).player.inventory = [] ∧
    (tryMove dirAt0 stC3 1 0).dungeon.items = [] ∧
    (tryMove dirAt0 stC3 1 0).player.atk_bonus = 6 ∧
    (tryMove dirAt0 stC3 1 0).player.weapon = "mace" := by decide

/-- C3 (amended): moving onto a weapon item whose attack bonus does not
exceed the current atk_bonus removes the weapon from the level's item list
and discards it — it is neither equipped (weapon and atk_bonus unchanged)
nor stored (inventory unchanged); only potions and scrolls are stored, while
gold and a strictly better weapon are consumed immediately. -/
theorem C3_weak_weapon_pickup_amended (dirAt : Nat → ℚ × ℚ) (st : GameState)
    (dx dy : Int) (j : Nat) (it : Item) (bonus : Int)
    (hm : bumpMerchant st.dungeon (st.player.x + dx) (st.player.y + dy) = none)
    (hmon : st.dungeon.monster_at_idx (st.player.x + dx) (st.player.y + dy) = none)
    (hw : st.dungeon.is_walkable (st.player.x + dx) (st.player.y + dy) = true)
    (hidx : st.dungeon.item_at_idx (st.player.x + dx) (st.player.y + dy) = some j)
    (hget : st.dungeon.items.get? j = some it)
    (hkind : it.kind = ItemKind.weapon bonus)
    (hb : bonus ≤ st.player.atk_bonus) :
    (tryMove dirAt st dx dy).player.inventory = st.player.inventory ∧
    (tryMove dirAt st dx dy).player.atk_bonus = st.player.atk_bonus ∧
    (tryMove dirAt st dx dy).player.weapon = st.player.weapon ∧
    (tryMove dirAt st dx dy).dungeon.items = st.dungeon.items.eraseIdx j ∧
    (tryMove dirAt st dx dy).player.x = st.player.x + dx ∧
    (tryMove dirAt st dx dy).player.y = st.player.y + dy := by
  simp only [tryMove, hm, hmon, hw, if_true, compute_fov_item_at_idx, hidx,
    pickup, compute_fov_items, hget, hkind]
  rw [if_neg (by simp; omega)]
  simp [compute_fov_items]

/-- C3 (witness): the weaker-sword pickup of `stC3`, concretely. -/
theorem C3_weak_weapon_pickup_amended_witness :
    stC3.dungeon.is_walkable (stC3.player.x + 1) (stC3.player.y + 0) = true ∧
    stC3.dungeon.item_at_idx (stC3.player.x + 1) (stC3.player.y + 0) = some 0 ∧
    stC3.dungeon.items.get? 0 = some ⟨2, 1, "short sword", ItemKind.weapon 4⟩ ∧
    (4 : Int) ≤ stC3.player.atk_bonus ∧
    ((tryMove dirAt0 stC3 1 0).player.inventory = stC3.player.inventory ∧
     (tryMove dirAt0 stC3 1 0).player.atk_bonus = stC3.player.atk_bonus ∧
     (tryMove dirAt0 stC3 1 0).player.weapon = stC3.player.weapon ∧
     (tryMove dirAt0 stC3 1 0).dungeon.items = stC3.dungeon.items.eraseIdx 0 ∧
     (tryMove dirAt0 stC3 1 0).player.x = stC3.player.x + 1 ∧
     (tryMove dirAt0 stC3 1 0).player.y = stC3.player.y + 0) :=
  ⟨by decide, by decide, by decide, by decide,
   C3_weak_weapon_pickup_amended dirAt0 stC3 1 0 0
     ⟨2, 1, "short sword", ItemKind.weapon 4⟩ 4 (by decide) (by decide)
     (by decide) (by decide) (by decide) (by decide) (by decide)⟩

/-- C4: for every rng stream and depth, level generation on the pathological
width 5 (height 22) raises — the first placement attempt draws a room width
in [5, 12], so `randint(1, w - rw - 2)` has an empty range and Python's
`randint` raises `ValueError` — contradicting the claim (and the spec's
stated failure mode) that generation terminates normally with a degenerate
zero-room level. -/
theorem C4_generate_pathological_errors (depth : Int) (r : Rng) :
    generate 5 22 depth r = Except.error GenError.emptyRange := by
  simp only [generate]
  simp only [randintE, Rng.next]
  rw [if_neg (by norm_num : ¬(9 : Int) < 5)]
  simp only [genm_bind_ok]
  rw [placeRooms_narrow_errors 22 _ 200 [] _ _ (by norm_num) (by simp; omega)]
  rfl

/-- C5: for every RNG draw r in [0, 2], a player attack deals
`max(1, atk - r)` ≥ 1 damage, and a monster attack deals
`max(1, monster.atk - defense - r)`, which is exactly 1 whenever
`defense ≥ monster.atk + 2`. -/
theorem C5_combat_damage (atk matk defense r : Int) (h0 : 0 ≤ r) (h2 : r ≤ 2) :
    1 ≤ player_attack_damage atk r ∧
    (matk + 2 ≤ defense → monster_attack_damage matk defense r = 1) := by
  refine ⟨le_max_left 1 _, fun hdef => ?_⟩
  unfold monster_attack_damage
  exact max_eq_left (by omega)

/-- C5 (witness): at atk 3, monster atk 5, defense 7, draw 0. -/
theorem C5_combat_damage_witness :
    (0 : Int) ≤ 0 ∧ (0 : Int) ≤ 2 ∧
    (1 ≤ player_attack_damage 3 0 ∧
      ((5 : Int) + 2 ≤ 7 → monster_attack_damage 5 7 0 = 1)) :=
  ⟨by decide, by decide, C5_combat_damage 3 5 7 0 (by decide) (by decide)⟩

/-- C6 (counterexample): in `stC6` (player at 1 hp, defense 0, visible
adjacent orc of atk 5, rng drawing 0) the monster sweep drives hp to −4 < 0
while transitioning to the dead state, refuting `0 ≤ hp` as an invariant
preserved by monster attacks. -/
theorem C6_counterexample :
    0 ≤ stC6.player.hp ∧ stC6.player.hp ≤ stC6.player.max_hp ∧
    (monster_turns stC6).player.hp = -4 ∧
    ¬0 ≤ (monster_turns stC6).player.hp ∧
    (monster_turns stC6).mode = Mode.dead := by decide

/-- C6 (amended): `hp ≤ max_hp` is preserved by every hp-changing operation,
and `0 ≤ hp` is preserved by potion use, the heal scroll, and the level-up
full heal; a monster attack can drive hp below 0, but whenever it leaves
hp ≤ 0 the session is in the dead state (so `0 < hp ≤ max_hp` holds in every
reachable non-dead state). -/
theorem C6_hp_invariant_amended :
    (∀ (st : GameState) (idx : Nat) (it : Item) (heal : Int),
      st.player.inventory.get? idx = some it → it.kind = ItemKind.potion heal →
      0 ≤ heal → 0 ≤ st.player.hp → st.player.hp ≤ st.player.max_hp →
      0 ≤ (useItem st idx).player.hp ∧
      (useItem st idx).player.hp ≤ (useItem st idx).player.max_hp) ∧
    (∀ (st : GameState) (idx : Nat) (it : Item) (sn : String),
      st.player.inventory.get? idx = some it →
      it.kind = ItemKind.scroll sn ScrollEffect.heal →
      0 ≤ st.player.hp → st.player.hp ≤ st.player.max_hp →
      0 ≤ (useItem st idx).player.hp ∧
      (useItem st idx).player.hp ≤ (useItem st idx).player.max_hp) ∧
    (∀ (p : Player) (amount : Int), 0 ≤ p.hp → p.hp ≤ p.max_hp →
      0 ≤ (p.gain_xp amount).1.hp ∧
      (p.gain_xp amount).1.hp ≤ (p.gain_xp amount).1.max_hp) ∧
    (∀ (st : GameState) (i : Nat), 0 < st.player.hp →
      st.player.hp ≤ st.player.max_hp →
      (stepMonster st i).1.player.hp ≤ (stepMonster st i).1.player.max_hp ∧
      ((stepMonster st i).1.player.hp ≤ 0 → (stepMonster st i).1.mode = Mode.dead)) := by
  refine ⟨?_, ?_, ?_, ?_⟩
  · intro st idx it heal hget hkind hheal h0 h1
    simp only [useItem, hget, hkind]
    refine ⟨?_, ?_⟩ <;> (try simp) <;> (try omega)
  · intro st idx it sn hget hkind h0 h1
    simp only [useItem, hget, hkind]
    refine ⟨?_, ?_⟩ <;> (try simp) <;> (try omega)
  · intro p amount h0 h1
    unfold Player.gain_xp
    exact gainXpLoop_hp_inv _ _ ⟨by simpa using h0, by simpa using h1⟩
  · intro st i h0 h1
    simp only [stepMonster]
    repeat' split
    all_goals simp_all [monster_attack_damage]
    all_goals omega

/-- C6 (witness): the monster attack of `stC6` keeps hp ≤ max_hp, and since
it leaves hp ≤ 0 the state is dead. -/
theorem C6_hp_invariant_amended_witness :
    0 < stC6.player.hp ∧ stC6.player.hp ≤ stC6.player.max_hp ∧
    ((stepMonster stC6 0).1.player.hp ≤ (stepMonster stC6 0).1.player.max_hp ∧
     ((stepMonster stC6 0).1.player.hp ≤ 0 → (stepMonster stC6 0).1.mode = Mode.dead)) :=
  ⟨by decide, by decide, C6_hp_invariant_amended.2.2.2 stC6 0 (by decide) (by decide)⟩

/-- C7: a purchase attempt on a valid stock index with gold < price changes
nothing except surfacing the affordability notice (the returned state equals
the old one with only the message appended, so gold, inventory, weapon, and
stock are unchanged); with gold ≥ price the entry is removed from the stock
and the price deducted. -/
theorem C7_shop_purchase (st : GameState) (idx : Nat) (entry : StockEntry)
    (hget : st.shop_stock.get? idx = some entry) :
    (st.player.gold < entry.price →
      shopSelect st idx =
        { st with messages := pushMsg st.messages "You cannot afford that!" }) ∧
    (entry.price ≤ st.player.gold →
      (shopSelect st idx).shop_stock = st.shop_stock.eraseIdx idx ∧
      (shopSelect st idx).player.gold = st.player.gold - entry.price) := by
  constructor
  · intro hlt
    simp only [shopSelect, hget]
    rw [if_neg (by omega)]
  · intro hge
    simp only [shopSelect, hget]
    rw [if_pos (by omega)]
    exact ⟨rfl, applyPurchase_gold _ _⟩

/-- C7 (witness): buying the 20-gold entry of `stC7` with 15 gold only adds
the notice message. -/
theorem C7_shop_purchase_witness :
    stC7.shop_stock.get? 0 = some entC7 ∧ stC7.player.gold < entC7.price ∧
    shopSelect stC7 0 =
      { stC7 with messages := pushMsg stC7.messages "You cannot afford that!" } :=
  ⟨by decide, by decide, (C7_shop_purchase stC7 0 entC7 (by decide)).1 (by decide)⟩

/-- C8: after `compute_fov` with radius ≥ 1 at an in-bounds viewpoint the
viewer's own tile is visible; and along any single ray a marked wall tile is
always the last tile the ray marks (the ray stops at the wall or at the grid
boundary), where `rayTrace` is exactly the list of tiles the ray marks on the
visible and revealed grids. -/
theorem C8_fov (d : Dungeon) (px py : Int) (radius : Nat) (dirAt : Nat → ℚ × ℚ)
    (hr : 1 ≤ radius) (hb : 0 ≤ px ∧ px < d.w ∧ 0 ≤ py ∧ py < d.h) :
    (d.compute_fov px py radius dirAt).visible px py = true ∧
    (∀ (dx dy x y : ℚ) (fuel i : Nat) (t : Int × Int),
      (rayTrace d dx dy x y fuel).get? i = some t →
      d.tiles t.1 t.2 = Tile.wall →
      i + 1 = (rayTrace d dx dy x y fuel).length) ∧
    (∀ (dx dy x y : ℚ) (fuel : Nat) (vr : Grid Bool × Grid Bool),
      castRay d dx dy x y fuel vr =
        (markTiles (rayTrace d dx dy x y fuel) vr.1,
         markTiles (rayTrace d dx dy x y fuel) vr.2)) :=
  ⟨compute_fov_sees_self d px py radius dirAt hr hb,
   fun dx dy x y fuel i t hget hw => rayTrace_wall_last d dx dy fuel x y i t hget hw,
   fun dx dy x y fuel vr => castRay_eq_markTiles d dx dy fuel x y vr⟩

/-- C8 (witness): the viewer tile (1,1) of `dgC2` is visible after
`compute_fov` with radius 6. -/
theorem C8_fov_witness :
    (1 : Nat) ≤ 6 ∧
    ((0 : Int) ≤ 1 ∧ (1 : Int) < dgC2.w ∧ (0 : Int) ≤ 1 ∧ (1 : Int) < dgC2.h) ∧
    (dgC2.compute_fov 1 1 6 dirAt0).visible 1 1 = true :=
  ⟨by decide, by decide, (C8_fov dgC2 1 1 6 dirAt0 (by decide) (by decide)).1⟩

/-- C9: during a monster sweep, a monster attack that drives the player's hp
to 0 or below (the death signal) makes the sweep return immediately: the
sweep's result is exactly the state after that one attack, in the dead mode,
with no later monster in the list acting (the monster list itself is
untouched by the killing attack). -/
theorem C9_death_aborts_sweep (st : GameState) (i : Nat) (rest : List Nat)
    (h : (stepMonster st i).2 = true) :
    monsterTurnsFrom st (i :: rest) = (stepMonster st i).1 ∧
    (stepMonster st i).1.mode = Mode.dead ∧
    (stepMonster st i).1.player.hp ≤ 0 ∧
    (stepMonster st i).1.dungeon.monsters = st.dungeon.monsters := by
  refine ⟨by simp [monsterTurnsFrom, h], ?_⟩
  simp only [stepMonster] at h ⊢
  repeat' split at h
  all_goals simp_all

/-- C9 (witness): the killing attack of `stC6` aborts a sweep that would
still hold monster index 1. -/
theorem C9_death_aborts_sweep_witness :
    (stepMonster stC6 0).2 = true ∧
    (monsterTurnsFrom stC6 [0, 1] = (stepMonster stC6 0).1 ∧
     (stepMonster stC6 0).1.mode = Mode.dead ∧
     (stepMonster stC6 0).1.player.hp ≤ 0 ∧
     (stepMonster stC6 0).1.dungeon.monsters = stC6.dungeon.monsters) :=
  ⟨by decide, C9_death_aborts_sweep stC6 0 [1] (by decide)⟩

/-- C10: the revealed grid is monotone — a tile revealed before
`compute_fov` (which only sets revealed flags true along its rays) or
`reveal_all` (which only sets revealed flags true) stays revealed after,
even though visible flags are cleared on each `compute_fov` call. -/
theorem C10_revealed_monotone (d : Dungeon) (px py : Int) (radius : Nat)
    (dirAt : Nat → ℚ × ℚ) (x y : Int) (h : d.revealed x y = true) :
    (d.compute_fov px py radius dirAt).revealed x y = true ∧
    d.reveal_all.revealed x y = true := by
  constructor
  · simp only [Dungeon.compute_fov]
    exact foldl_pres _ (fun vr : Grid Bool × Grid Bool => vr.2 x y = true)
      (fun b a hb' => (castRay_mono d _ _ _ _ _ _ x y).2 hb') _ _ h
  · simp only [Dungeon.reveal_all]
    split <;> simp [h]

/-- C10 (witness): the pre-revealed tile (1,1) of `dgC10` stays revealed
through `compute_fov` and `reveal_all`. -/
theorem C10_revealed_monotone_witness :
    dgC10.revealed 1 1 = true ∧
    ((dgC10.compute_fov 1 1 6 dirAt0).revealed 1 1 = true ∧
     dgC10.reveal_all.revealed 1 1 = true) :=
  ⟨by decide, C10_revealed_monotone dgC10 1 1 6 dirAt0 1 1 (by decide)⟩
